import Mathlib

/-!
Verification of the SIH_Backend video-risk pipeline.

This development shallowly embeds the two core source files:
* `Master_LLM/ML_Models/Inside_cave/genai.py` — confidence scaling
  (`scale_confidence`), the risk-conclusion rule engine
  (`conclusion_analysis`), the Gemini summary reconciliation
  (`summarize_with_gemini`) and the end-to-end
  `process_video_and_summarize`.
* `Master_LLM/ML_Models/Outer_surface/model/outer_surface.py` — frame
  sampling, the per-frame inference task (`process_frame`) and the
  completion-order collection loop of `process_video`.

Python floats are modelled as exact rationals; Python `round` (banker's
rounding, half to even) and `int()` (truncation toward zero) are modelled
explicitly.  External network calls (the Roboflow inference workflow, the
Gemini chat) are modelled as explicit `Except`-valued parameters, and the
nondeterministic `as_completed` enumeration of futures as an explicit
completion-order list of saved frame ids.
-/

namespace SIH

/-- Python 3 `round` to an integer: round half to even (banker's
rounding), modelled on exact rationals. -/
def pyRound (q : ℚ) : ℤ :=
  if q - ⌊q⌋ < 1/2 then ⌊q⌋
  else if 1/2 < q - ⌊q⌋ then ⌊q⌋ + 1
  else if 2 ∣ ⌊q⌋ then ⌊q⌋ else ⌊q⌋ + 1

/-- Python `int()` applied to a float: truncation toward zero. -/
def pyInt (q : ℚ) : ℤ :=
  if 0 ≤ q then ⌊q⌋ else -⌊-q⌋

/-- The piecewise-linear `scaled` value computed inside `scale_confidence`
in `genai.py`, as a function of `actual = conf * 100`.  The guards are the
source's `if actual <= 40 / elif 40 < actual <= 55 / elif 55 < actual <= 60
/ else` chain (the left half of each `elif` guard being redundant after the
preceding branch failed). -/
def scaledOf (actual : ℚ) : ℚ :=
  if actual ≤ 40 then actual
  else if actual ≤ 55 then 40 + (actual - 40) * (90 - 40) / (55 - 40)
  else if actual ≤ 60 then 90 + (actual - 55) * (95 - 90) / (60 - 55)
  else 98

/-- `scale_confidence` from `genai.py` (the spec's ConfidenceNormalizer):
remaps a raw confidence in `[0,1]` and returns `int(round(scaled))`. -/
def scale_confidence (conf : ℚ) : ℤ :=
  pyRound (scaledOf (conf * 100))

/-- The final analysis dictionary shape of `genai.py`
(riskLevel / confidence / trajectory / rockSize / recommendations). -/
@[ext]
structure Analysis where
  riskLevel : String
  confidence : ℤ
  trajectory : String
  rockSize : String
  recommendations : List String
  deriving Repr, DecidableEq

/-- Python `list(dict.fromkeys(l))`: removes duplicates, keeping the first
occurrence of each element in order. -/
def pyDedup : List String → List String
  | [] => []
  | x :: xs => x :: pyDedup (xs.filter (fun y => y ≠ x))
termination_by l => l.length
decreasing_by
  simp only [List.length_cons]
  exact Nat.lt_succ_of_le (List.length_filter_le _ _)

/-- The riskLevel branch of `conclusion_analysis`: adjusts riskLevel based
on confidence. -/
def riskOf (conf : ℤ) : String :=
  if conf ≤ 40 then ("Low")
  else if conf ≤ 60 then ("Medium")
  else if conf ≤ 75 then ("High")
  else ("Very High")

/-- The trajectory gap-fill branch of `conclusion_analysis`: adjusts
trajectory if missing. -/
def fillTrajectory (conf : ℤ) (trajectory : String) : String :=
  if trajectory = "Unknown" then
    if 70 < conf then ("Unstable") else if 50 < conf then ("Moderate") else ("Stable")
  else trajectory

/-- The rockSize gap-fill branch of `conclusion_analysis`: adjusts
rockSize if missing. -/
def fillRockSize (conf : ℤ) (rock_size : String) : String :=
  if rock_size = "Unknown" then
    if 75 < conf then ("Large") else if 50 < conf then ("Medium") else ("Small")
  else rock_size

/-- The recommendations branch of `conclusion_analysis`: assembled from
the adjusted riskLevel, rockSize and trajectory (the source's sequence of
appends). -/
def recsOf (risk rock_size trajectory : String) : List String :=
  if risk = "Low" ∨ risk = "Medium" then
    "Continue monitoring" ::
      (if rock_size = "Medium" ∨ rock_size = "Large" then ["Schedule inspection"] else [])
  else if risk = "High" ∨ risk = "Very High" then
    "Immediate inspection" :: "Evacuate personnel if necessary" ::
      (if trajectory = "Unstable" then ["Reinforce support structures"] else [])
  else []

/-- `conclusion_analysis` from `genai.py` (the spec's RiskConclusionEngine):
recomputes riskLevel from confidence, fills trajectory and rockSize when
they are `"Unknown"`, rebuilds recommendations from the adjusted fields and
deduplicates them, and returns the adjusted analysis with the confidence
unchanged. -/
def conclusion_analysis (analysis : Analysis) : Analysis :=
  { riskLevel := riskOf analysis.confidence
    confidence := analysis.confidence
    trajectory := fillTrajectory analysis.confidence analysis.trajectory
    rockSize := fillRockSize analysis.confidence analysis.rockSize
    recommendations := pyDedup (recsOf (riskOf analysis.confidence)
      (fillRockSize analysis.confidence analysis.rockSize)
      (fillTrajectory analysis.confidence analysis.trajectory)) }

/-- One inside-cave detection as consumed by `summarize_with_gemini`:
a class name and a confidence (missing confidences read as 0 through
`p.get`, so the field is total here). -/
structure Detection where
  cls : String
  confidence : ℚ
  deriving Repr, DecidableEq

/-- The `highest_conf` accumulation loop of `summarize_with_gemini`:
starts at 0 and replaces the accumulator whenever a strictly larger
per-detection confidence is seen, over all frames of the predictions
mapping. -/
def highestConf (predictions : List (List Detection)) : ℚ :=
  predictions.foldl
    (fun acc preds =>
      preds.foldl (fun h p => if p.confidence > h then p.confidence else h) acc)
    0

/-- A Gemini summary once parsed from JSON: every field is optional,
because `process_video_and_summarize` reads them with `.get` defaults. -/
structure ParsedSummary where
  riskLevel : Option String := none
  confidence : Option ℤ := none
  rockSize : Option String := none
  trajectory : Option String := none
  recommendations : Option (List String) := none
  deriving Repr, DecidableEq

/-- `summarize_with_gemini` from `genai.py`.  The external chat call and
the JSON parse are modelled by `geminiResult`: `Except.ok s` when the call
succeeded and `safe_json_loads` produced a summary, `Except.error e` when
the call raised or the reply was invalid JSON (the caught exception
rendered as the string `e`).  On success the parsed summary's confidence
is overwritten with `scale_confidence highest_conf`; on failure the
fallback dictionary is returned. -/
def summarize_with_gemini (geminiResult : Except String ParsedSummary)
    (predictions : List (List Detection)) : ParsedSummary :=
  match geminiResult with
  | Except.ok summary =>
      { summary with confidence := some (scale_confidence (highestConf predictions)) }
  | Except.error e =>
      { riskLevel := some ("Unknown")
        confidence := some (scale_confidence (highestConf predictions))
        rockSize := some ("Unknown")
        trajectory := some ("Unknown")
        recommendations := some ["❌ Gemini failed: " ++ e] }

/-- `process_video_and_summarize` from `genai.py`.  `videoResult` models
`process_video_file` (ok: the per-frame predictions mapping; error: the
exception message), `geminiResult` models the Gemini call as above.  The
seed analysis is assembled from the summary with `.get` defaults and passed
through `conclusion_analysis`; the source's success dictionary is the `ok`
value, its failure dictionary the `error` value. -/
def process_video_and_summarize (videoResult : Except String (List (List Detection)))
    (geminiResult : Except String ParsedSummary) : Except String Analysis :=
  match videoResult with
  | Except.error e => Except.error ("❌ Video processing failed: " ++ e)
  | Except.ok all_predictions =>
      Except.ok (conclusion_analysis
        { riskLevel :=
            Option.getD (summarize_with_gemini geminiResult all_predictions).riskLevel ("Unknown")
          confidence :=
            Option.getD (summarize_with_gemini geminiResult all_predictions).confidence 0
          trajectory :=
            Option.getD (summarize_with_gemini geminiResult all_predictions).trajectory ("Unknown")
          rockSize :=
            Option.getD (summarize_with_gemini geminiResult all_predictions).rockSize ("Unknown")
          recommendations :=
            Option.getD (summarize_with_gemini geminiResult all_predictions).recommendations
              ["Continue monitoring", "Schedule inspection"] })

/-- One raw prediction returned by the outer-surface inference workflow:
class, confidence, and the large geometric `points` payload that
`process_frame` strips. -/
structure RawPrediction where
  cls : String
  confidence : ℚ
  points : List (ℚ × ℚ)
  deriving Repr, DecidableEq

/-- A prediction after `process_frame` copies every key except
`points`. -/
structure CleanPrediction where
  cls : String
  confidence : ℚ
  deriving Repr, DecidableEq

/-- The dict-comprehension in `process_frame` that copies all keys of a
prediction except `points`. -/
def dropPoints (p : RawPrediction) : CleanPrediction :=
  { cls := p.cls, confidence := p.confidence }

/-- The cleaning loop of `process_frame`: keep a prediction iff its
confidence is at least `conf_threshold`, stripping `points` from each kept
one. -/
def cleanPredictions (conf_threshold : ℚ) (raw : List RawPrediction) :
    List CleanPrediction :=
  (raw.filter (fun p => conf_threshold ≤ p.confidence)).map dropPoints

/-- `process_frame` from `outer_surface.py`.  The Roboflow workflow call
is modelled by `gateway`, indexed by the saved frame id (each saved frame
is submitted exactly once): `Except.ok raw` is the extracted
`model_predictions` list, `Except.error e` a raised exception.  The
source's `try` block has a `finally` (temp-file removal, no observable
effect here) but no `except`: a gateway exception propagates out of the
task unchanged. -/
def process_frame (gateway : ℕ → Except String (List RawPrediction))
    (conf_threshold : ℚ) (frame_id : ℕ) :
    Except String (ℕ × List CleanPrediction) :=
  match gateway frame_id with
  | Except.error e => Except.error e
  | Except.ok raw => Except.ok (frame_id, cleanPredictions conf_threshold raw)

/-- The dictionary key `f"frame_{frame_id}"` used by `process_video`. -/
def frameKey (frame_id : ℕ) : String :=
  "frame_" ++ Nat.repr frame_id

/-- `frame_interval = int(fps * interval_sec)` from `process_video`. -/
def strideOf (fps interval_sec : ℚ) : ℤ :=
  pyInt (fps * interval_sec)

/-- The read-loop of `process_video`: of the `numFrames` decoded frames
(indexed by `frame_count`), those submitted for inference are the ones
with `frame_count % frame_interval == 0`. -/
def sampledDecodedIndices (numFrames : ℕ) (frame_interval : ℤ) : List ℕ :=
  (List.range numFrames).filter (fun fc => (fc : ℤ) % frame_interval = 0)

/-- The futures submitted by `process_video`, as
`(saved_frame_count, frame_count)` pairs in submission order: saved ids
count up from 0 across the sampled decoded frames. -/
def futuresOf (numFrames : ℕ) (frame_interval : ℤ) : List (ℕ × ℕ) :=
  (sampledDecodedIndices numFrames frame_interval).enum

/-- The `as_completed` collection loop of `process_video`.  `order` lists
the saved frame ids in the order their futures complete.  Each
`future.result()` re-raises the task's exception, so the first failing
future in completion order aborts the loop (and `process_video` itself);
otherwise each result is inserted into `all_predictions` under its
`frame_` key, in completion order. -/
def collectResults (gateway : ℕ → Except String (List RawPrediction))
    (conf_threshold : ℚ) :
    List ℕ → Except String (List (String × List CleanPrediction))
  | [] => Except.ok []
  | fid :: rest =>
      match process_frame gateway conf_threshold fid with
      | Except.error e => Except.error e
      | Except.ok res =>
          match collectResults gateway conf_threshold rest with
          | Except.error e => Except.error e
          | Except.ok acc => Except.ok ((frameKey res.fst, res.snd) :: acc)

/-- `process_video` from `outer_surface.py`, observed at the level the
claims speak about.  The video source is modelled by its decoded frame
count `numFrames` and reported `fps`; the inference workflow by `gateway`;
the nondeterministic completion order of the submitted futures by `order`
(a permutation of the saved ids, hypothesised where needed).  When at
least one frame is decoded and `frame_interval` is 0 the first loop
iteration evaluates `frame_count % frame_interval` and raises
`ZeroDivisionError`; otherwise the sampled frames are submitted and the
results collected in completion order. -/
def process_video (gateway : ℕ → Except String (List RawPrediction))
    (numFrames : ℕ) (fps interval_sec conf_threshold : ℚ) (order : List ℕ) :
    Except String (List (String × List CleanPrediction)) :=
  if numFrames ≠ 0 ∧ strideOf fps interval_sec = 0 then
    Except.error "ZeroDivisionError: integer modulo by zero"
  else
    collectResults gateway conf_threshold order

/-! ### Helper lemmas -/

theorem pyRound_low (q : ℚ) (f : ℤ) (h1 : (f : ℚ) ≤ q) (h2 : q - f < 1/2) :
    pyRound q = f := by
  have hq : ⌊q⌋ = f := by
    rw [Int.floor_eq_iff]
    refine ⟨h1, ?_⟩
    linarith
  simp only [pyRound, hq]
  rw [if_pos h2]

theorem pyRound_high (q : ℚ) (f : ℤ) (h1 : 1/2 < q - f) (h2 : q < f + 1) :
    pyRound q = f + 1 := by
  have hq : ⌊q⌋ = f := by
    rw [Int.floor_eq_iff]
    constructor
    · linarith
    · linarith
  simp only [pyRound, hq]
  rw [if_neg (by linarith), if_pos h1]

theorem pyRound_intCast (z : ℤ) : pyRound (z : ℚ) = z :=
  pyRound_low _ z le_rfl (by norm_num)

theorem pyRound_mono {a b : ℚ} (hab : a ≤ b) : pyRound a ≤ pyRound b := by
  rcases eq_or_lt_of_le (Int.floor_le_floor hab) with heq | hlt
  · have hfa : (⌊a⌋ : ℚ) = ⌊b⌋ := by exact_mod_cast heq
    unfold pyRound
    rw [← heq]
    have hr : a - ⌊a⌋ ≤ b - ⌊a⌋ := by linarith
    split_ifs <;> first | omega | linarith
  · have ha : pyRound a ≤ ⌊a⌋ + 1 := by
      unfold pyRound
      split_ifs <;> omega
    have hb : ⌊b⌋ ≤ pyRound b := by
      unfold pyRound
      split_ifs <;> omega
    omega

theorem scaledOf_mono {a b : ℚ} (hab : a ≤ b) : scaledOf a ≤ scaledOf b := by
  unfold scaledOf
  split_ifs <;> linarith

/-! ### C3: the ConfidenceNormalizer table -/

/-- C3: on raw confidences in `[0,1]`, `scale_confidence` matches the
spec's piecewise table (actual = raw×100; actual ≤ 40 → actual;
40 < actual ≤ 55 → 40 + (actual−40)·50/15; 55 < actual ≤ 60 →
90 + (actual−55); actual > 60 → 98), rounded to an integer; it takes the
claimed values at 0.30, 0.45, 0.58, 0.70; and it is monotone
non-decreasing. -/
theorem scale_confidence_spec :
    (∀ conf : ℚ, 0 ≤ conf → conf ≤ 1 →
      ((conf * 100 ≤ 40 → scale_confidence conf = pyRound (conf * 100)) ∧
       (40 < conf * 100 → conf * 100 ≤ 55 →
         scale_confidence conf = pyRound (40 + (conf * 100 - 40) * 50 / 15)) ∧
       (55 < conf * 100 → conf * 100 ≤ 60 →
         scale_confidence conf = pyRound (90 + (conf * 100 - 55))) ∧
       (60 < conf * 100 → scale_confidence conf = 98))) ∧
    scale_confidence (30/100) = 30 ∧
    scale_confidence (45/100) = 57 ∧
    scale_confidence (58/100) = 93 ∧
    scale_confidence (70/100) = 98 ∧
    (∀ x y : ℚ, 0 ≤ x → x ≤ y → y ≤ 1 →
      scale_confidence x ≤ scale_confidence y) := by
  refine ⟨?_, ?_, ?_, ?_, ?_, ?_⟩
  · intro conf _ _
    refine ⟨?_, ?_, ?_, ?_⟩
    · intro h1
      unfold scale_confidence scaledOf
      rw [if_pos h1]
    · intro h1 h2
      unfold scale_confidence scaledOf
      rw [if_neg (by linarith), if_pos h2]
      norm_num
    · intro h1 h2
      unfold scale_confidence scaledOf
      rw [if_neg (by linarith), if_neg (by linarith), if_pos h2]
      norm_num
    · intro h1
      unfold scale_confidence scaledOf
      rw [if_neg (by linarith), if_neg (by linarith), if_neg (by linarith)]
      exact pyRound_intCast 98
  · unfold scale_confidence
    norm_num [scaledOf]
    exact pyRound_low 30 30 (by norm_num) (by norm_num)
  · unfold scale_confidence
    norm_num [scaledOf]
    exact pyRound_high _ 56 (by norm_num) (by norm_num)
  · unfold scale_confidence
    norm_num [scaledOf]
    exact pyRound_low 93 93 (by norm_num) (by norm_num)
  · unfold scale_confidence
    norm_num [scaledOf]
    exact pyRound_low 98 98 (by norm_num) (by norm_num)
  · intro x y _ hxy _
    exact pyRound_mono (scaledOf_mono (by linarith))

/-- Witness for C3's hypotheses: the table at a concrete mid-band point
and monotonicity at a concrete pair. -/
theorem scale_confidence_spec_witness :
    scale_confidence (1/2) = pyRound (40 + ((1/2 : ℚ) * 100 - 40) * 50 / 15) ∧
    scale_confidence (1/4) ≤ scale_confidence (1/2) := by
  constructor
  · exact ((scale_confidence_spec.1 (1/2) (by norm_num) (by norm_num)).2.1
      (by norm_num) (by norm_num))
  · exact scale_confidence_spec.2.2.2.2.2 (1/4) (1/2)
      (by norm_num) (by norm_num) (by norm_num)

/-! ### Field lemmas for the rule engine -/

theorem fillTrajectory_ne (conf : ℤ) (t : String) :
    fillTrajectory conf t ≠ "Unknown" := by
  unfold fillTrajectory
  split_ifs with h1 h2 h3 <;> simp_all

theorem fillRockSize_ne (conf : ℤ) (r : String) :
    fillRockSize conf r ≠ "Unknown" := by
  unfold fillRockSize
  split_ifs with h1 h2 h3 <;> simp_all

theorem fillTrajectory_idem (conf : ℤ) (t : String) :
    fillTrajectory conf (fillTrajectory conf t) = fillTrajectory conf t := by
  conv_lhs => rw [fillTrajectory]
  rw [if_neg (fillTrajectory_ne conf t)]

theorem fillRockSize_idem (conf : ℤ) (r : String) :
    fillRockSize conf (fillRockSize conf r) = fillRockSize conf r := by
  conv_lhs => rw [fillRockSize]
  rw [if_neg (fillRockSize_ne conf r)]

/-! ### C4: the riskLevel decision table -/

/-- C4: the riskLevel produced by `conclusion_analysis` follows the exact
table `c ≤ 40 → Low`, `40 < c ≤ 60 → Medium`, `60 < c ≤ 75 → High`,
`c > 75 → Very High` (boundaries included on the low side), and depends on
nothing but the seed's confidence. -/
theorem riskLevel_table (a : Analysis) :
    ((a.confidence ≤ 40 → (conclusion_analysis a).riskLevel = "Low") ∧
     (40 < a.confidence → a.confidence ≤ 60 →
       (conclusion_analysis a).riskLevel = "Medium") ∧
     (60 < a.confidence → a.confidence ≤ 75 →
       (conclusion_analysis a).riskLevel = "High") ∧
     (75 < a.confidence → (conclusion_analysis a).riskLevel = "Very High")) ∧
    (∀ b : Analysis, a.confidence = b.confidence →
      (conclusion_analysis a).riskLevel = (conclusion_analysis b).riskLevel) := by
  constructor
  · have hr : (conclusion_analysis a).riskLevel = riskOf a.confidence := rfl
    rw [hr]
    unfold riskOf
    refine ⟨?_, ?_, ?_, ?_⟩
    · intro h
      rw [if_pos h]
    · intro h1 h2
      rw [if_neg (by omega), if_pos h2]
    · intro h1 h2
      rw [if_neg (by omega), if_neg (by omega), if_pos h2]
    · intro h
      rw [if_neg (by omega), if_neg (by omega), if_neg (by omega)]
  · intro b hconf
    show riskOf a.confidence = riskOf b.confidence
    rw [hconf]

/-- Witness for C4 at the three boundary confidences 40, 60, 75 (and a
second seed sharing the confidence but nothing else). -/
theorem riskLevel_table_witness :
    (conclusion_analysis ⟨"x", 40, "x", "x", []⟩).riskLevel = "Low" ∧
    (conclusion_analysis ⟨"x", 60, "x", "x", []⟩).riskLevel = "Medium" ∧
    (conclusion_analysis ⟨"x", 75, "x", "x", []⟩).riskLevel = "High" ∧
    (conclusion_analysis ⟨"x", 76, "x", "x", []⟩).riskLevel = "Very High" ∧
    (conclusion_analysis ⟨"a", 40, "b", "c", ["d"]⟩).riskLevel =
      (conclusion_analysis ⟨"x", 40, "x", "x", []⟩).riskLevel := by
  refine ⟨?_, ?_, ?_, ?_, ?_⟩
  · exact (riskLevel_table ⟨"x", 40, "x", "x", []⟩).1.1 (by decide)
  · exact (riskLevel_table ⟨"x", 60, "x", "x", []⟩).1.2.1 (by decide) (by decide)
  · exact (riskLevel_table ⟨"x", 75, "x", "x", []⟩).1.2.2.1 (by decide) (by decide)
  · exact (riskLevel_table ⟨"x", 76, "x", "x", []⟩).1.2.2.2 (by decide)
  · exact (riskLevel_table ⟨"a", 40, "b", "c", ["d"]⟩).2 ⟨"x", 40, "x", "x", []⟩ rfl

/-! ### C7: idempotence of the rule engine -/

/-- C7: `conclusion_analysis` is idempotent — applied to its own output it
returns that output unchanged, for every seed analysis. -/
theorem conclusion_analysis_idempotent (a : Analysis) :
    conclusion_analysis (conclusion_analysis a) = conclusion_analysis a := by
  unfold conclusion_analysis
  simp only [fillTrajectory_idem, fillRockSize_idem]

/-! ### C10: the seed's recommendations never influence the result -/

/-- C10: the engine's output is computed solely from confidence, rockSize
and trajectory — two seeds differing only in their recommendations (for
example one carrying the fallback's collaborator-error message) produce
identical results, and the output recommendations are rebuilt from the
derived risk tier, rockSize and trajectory. -/
theorem recommendations_ignore_seed (a : Analysis) (r1 r2 : List String) :
    conclusion_analysis { a with recommendations := r1 } =
      conclusion_analysis { a with recommendations := r2 } ∧
    (conclusion_analysis a).recommendations =
      pyDedup (recsOf (riskOf a.confidence)
        (fillRockSize a.confidence a.rockSize)
        (fillTrajectory a.confidence a.trajectory)) :=
  ⟨rfl, rfl⟩

/-! ### C6: the fallback seed on advisory failure -/

/-- C6 (counterexample): the claim says the fallback seed has an *empty*
recommendations list, but the fallback built on a Gemini failure carries
exactly one recommendation — the recorded error message — so its
recommendations are not empty. -/
theorem fallback_recs_nonempty :
    (summarize_with_gemini (Except.error "boom") []).recommendations =
      some ["❌ Gemini failed: boom"] ∧
    (summarize_with_gemini (Except.error "boom") []).recommendations ≠
      some [] := by
  refine ⟨rfl, ?_⟩
  intro h
  simp [summarize_with_gemini] at h

/-- C6 (amended): on a Gemini call failure or JSON parse failure, the
substituted fallback summary has riskLevel, rockSize and trajectory all
`"Unknown"`, and its recommendations are the single recorded
collaborator-error string (not an empty list); the seed assembled from it
by `process_video_and_summarize` and handed to `conclusion_analysis`
carries the same fields. -/
theorem fallback_default_seed (e : String) (preds : List (List Detection)) :
    (summarize_with_gemini (Except.error e) preds).riskLevel = some "Unknown" ∧
    (summarize_with_gemini (Except.error e) preds).rockSize = some "Unknown" ∧
    (summarize_with_gemini (Except.error e) preds).trajectory = some "Unknown" ∧
    (summarize_with_gemini (Except.error e) preds).recommendations =
      some ["❌ Gemini failed: " ++ e] :=
  ⟨rfl, rfl, rfl, rfl⟩

/-! ### C2: the final confidence is always the normalized highest raw
confidence -/

/-- The inner accumulator of `highestConf` is a running maximum. -/
theorem highestConf_inner (preds : List Detection) (acc : ℚ) :
    preds.foldl (fun h p => if p.confidence > h then p.confidence else h) acc =
      (preds.map Detection.confidence).foldl max acc := by
  induction preds generalizing acc with
  | nil => rfl
  | cons p rest ih =>
      simp only [List.foldl_cons, List.map_cons, ih]
      congr 1
      rcases le_or_lt p.confidence acc with h | h
      · rw [if_neg (by exact not_lt.mpr h), max_eq_left h]
      · rw [if_pos h, max_eq_right h.le]

/-- `highestConf` is the maximum of all observed detection confidences,
with 0 as the starting value (hence 0 when there are no detections). -/
theorem highestConf_eq_max (predictions : List (List Detection)) :
    highestConf predictions =
      ((predictions.flatten.map Detection.confidence).foldl max 0) := by
  unfold highestConf
  rw [List.map_flatten, List.foldl_flatten, List.foldl_map]
  congr 1
  funext acc preds
  exact highestConf_inner preds acc

/-- C2: whenever `process_video_and_summarize` succeeds, the confidence of
the returned analysis equals `scale_confidence` of the highest raw
detection confidence (the running maximum started at 0, hence 0 with no
detections) — regardless of what the advisory summary said or whether it
parsed at all; the advisory's own confidence value is never used. -/
theorem analysis_confidence_normalized (videoPreds : List (List Detection))
    (geminiResult : Except String ParsedSummary) (a : Analysis)
    (h : process_video_and_summarize (Except.ok videoPreds) geminiResult =
      Except.ok a) :
    a.confidence = scale_confidence (highestConf videoPreds) ∧
    highestConf videoPreds =
      ((videoPreds.flatten.map Detection.confidence).foldl max 0) := by
  refine ⟨?_, highestConf_eq_max videoPreds⟩
  cases geminiResult with
  | ok s =>
      simp only [process_video_and_summarize, summarize_with_gemini,
        Except.ok.injEq] at h
      subst h
      rfl
  | error e =>
      simp only [process_video_and_summarize, summarize_with_gemini,
        Except.ok.injEq] at h
      subst h
      rfl

/-- Witness for C2: a failing Gemini call over an empty prediction set;
the hypothesis is discharged by `rfl` and the final confidence is the
normalized 0. -/
theorem analysis_confidence_normalized_witness :
    (conclusion_analysis
      { riskLevel := "Unknown"
        confidence := scale_confidence (highestConf [])
        trajectory := "Unknown"
        rockSize := "Unknown"
        recommendations := ["❌ Gemini failed: boom"] }).confidence =
      scale_confidence (highestConf []) ∧
    highestConf [] = (([] : List (List Detection)).flatten.map Detection.confidence).foldl max 0 :=
  analysis_confidence_normalized [] (Except.error "boom") _ rfl

/-! ### Helper lemmas for the outer-surface pipeline -/

theorem strideOf_one_one : strideOf 1 1 = 1 := by
  unfold strideOf pyInt
  rw [if_pos (by norm_num)]
  norm_num

theorem collectResults_not_ok {gw : ℕ → Except String (List RawPrediction)}
    {th : ℚ} {fid : ℕ} {e : String} :
    ∀ {order : List ℕ}, fid ∈ order → gw fid = Except.error e →
    ∀ res, collectResults gw th order ≠ Except.ok res := by
  intro order
  induction order with
  | nil =>
      intro h
      cases h
  | cons x rest ih =>
      intro hmem hfail res hok
      rw [collectResults] at hok
      cases hx : process_frame gw th x with
      | error e2 =>
          rw [hx] at hok
          cases hok
      | ok r =>
          rw [hx] at hok
          cases hrest : collectResults gw th rest with
          | error e2 =>
              rw [hrest] at hok
              cases hok
          | ok acc =>
              rcases List.mem_cons.mp hmem with heq | hmem2
              · subst heq
                rw [process_frame, hfail] at hx
                cases hx
              · exact ih hmem2 hfail acc hrest

theorem collect_ok_keys (gw : ℕ → Except String (List RawPrediction)) (th : ℚ) :
    ∀ order : List ℕ, (∀ fid ∈ order, ∃ l, gw fid = Except.ok l) →
    ∃ res, collectResults gw th order = Except.ok res ∧
      res.map Prod.fst = order.map frameKey := by
  intro order
  induction order with
  | nil =>
      intro _
      exact ⟨[], rfl, rfl⟩
  | cons x rest ih =>
      intro h
      obtain ⟨l, hl⟩ := h x (List.mem_cons_self x rest)
      obtain ⟨res, hres, hkeys⟩ := ih (fun f hf => h f (List.mem_cons_of_mem x hf))
      refine ⟨(frameKey x, cleanPredictions th l) :: res, ?_, ?_⟩
      · rw [collectResults, process_frame, hl, hres]
      · simp [hkeys]

/-! ### C1: a failing inference call is not isolated -/

/-- C1 (counterexample): with two sampled frames and the gateway failing
on frame 0, `process_video` does not complete the batch with an empty
detection list for frame 0 — it aborts with the task's error. -/
theorem inference_failure_aborts_example :
    process_video (fun i => if i = 0 then Except.error "boom" else Except.ok [])
      2 1 1 (4/10) [0, 1] = Except.error "boom" := by
  unfold process_video
  rw [strideOf_one_one, if_neg (by omega)]
  rfl

/-- C1 (amended): a per-frame InferenceGateway failure is not isolated —
`process_frame` has no except-handler, so `future.result()` re-raises the
error inside the collection loop and `process_video` never returns a
PredictionSet: for any completion order containing the failing frame id,
the call does not produce an `ok` result. -/
theorem inference_failure_aborts (gw : ℕ → Except String (List RawPrediction))
    (numFrames : ℕ) (fps interval_sec th : ℚ) (order : List ℕ)
    (fid : ℕ) (e : String)
    (hmem : fid ∈ order) (hfail : gw fid = Except.error e) :
    ∀ res, process_video gw numFrames fps interval_sec th order ≠
      Except.ok res := by
  intro res hok
  unfold process_video at hok
  by_cases hc : numFrames ≠ 0 ∧ strideOf fps interval_sec = 0
  · rw [if_pos hc] at hok
    cases hok
  · rw [if_neg hc] at hok
    exact collectResults_not_ok hmem hfail res hok

/-- Witness for C1's amended theorem: one sampled frame whose gateway call
fails. -/
theorem inference_failure_aborts_witness :
    process_video (fun _ => Except.error "boom") 1 1 1 (4/10) [0] ≠
      Except.ok [] :=
  inference_failure_aborts _ 1 1 1 (4/10) [0] 0 "boom"
    (List.mem_singleton.mpr rfl) rfl []

/-! ### C5: zero frame rate -/

/-- C5: with a reported frame rate of 0 (and at least one decoded frame),
`process_video` does not fall back to a stride of 1: `frame_interval`
computes to 0 and the first `frame_count % frame_interval` evaluation
raises ZeroDivisionError, aborting the pipeline. -/
theorem zero_fps_crashes :
    strideOf 0 2 = 0 ∧
    process_video (fun _ => Except.ok []) 1 0 2 (4/10) [] =
      Except.error "ZeroDivisionError: integer modulo by zero" := by
  have hs : strideOf 0 2 = 0 := by
    unfold strideOf pyInt
    rw [if_pos (by norm_num)]
    norm_num
  refine ⟨hs, ?_⟩
  unfold process_video
  rw [hs, if_pos ⟨by omega, rfl⟩]

/-! ### C8: aggregation order -/

/-- C8 (counterexample): the aggregated mapping is keyed and iterated in
task completion order, not frameIndex order — the same two-frame video
collected in completion order `[1, 0]` and `[0, 1]` yields two different
orderings, the first of which does not list `frame_0` first. -/
theorem aggregation_depends_on_order :
    process_video (fun _ => Except.ok []) 2 1 1 (4/10) [1, 0] =
      Except.ok [(frameKey 1, []), (frameKey 0, [])] ∧
    process_video (fun _ => Except.ok []) 2 1 1 (4/10) [0, 1] =
      Except.ok [(frameKey 0, []), (frameKey 1, [])] ∧
    [(frameKey 1, ([] : List CleanPrediction)), (frameKey 0, [])] ≠
      [(frameKey 0, []), (frameKey 1, [])] := by
  refine ⟨?_, ?_, by decide⟩
  · unfold process_video
    rw [strideOf_one_one, if_neg (by omega)]
    rfl
  · unfold process_video
    rw [strideOf_one_one, if_neg (by omega)]
    rfl

/-- C8 (amended): when every gateway call of the batch succeeds, the
published mapping has exactly one entry per saved frame id — its key list
is a permutation of `frame_0 … frame_(n-1)` whenever the completion order
is a permutation of `0 … n-1` — but the keys appear in completion order,
not frameIndex order. -/
theorem aggregation_keys_completion_order
    (gw : ℕ → Except String (List RawPrediction)) (th fps interval_sec : ℚ)
    (numFrames n : ℕ) (order : List ℕ)
    (hstride : strideOf fps interval_sec ≠ 0)
    (hok : ∀ fid ∈ order, ∃ l, gw fid = Except.ok l)
    (hperm : order.Perm (List.range n)) :
    ∃ res, process_video gw numFrames fps interval_sec th order =
        Except.ok res ∧
      res.map Prod.fst = order.map frameKey ∧
      (res.map Prod.fst).Perm ((List.range n).map frameKey) := by
  obtain ⟨res, hres, hkeys⟩ := collect_ok_keys gw th order hok
  refine ⟨res, ?_, hkeys, ?_⟩
  · unfold process_video
    rw [if_neg (by tauto)]
    exact hres
  · rw [hkeys]
    exact hperm.map frameKey

/-- Witness for C8's amended theorem: two frames completing in reverse
order still publish both keys, as a permutation of the frameIndex-ordered
key list. -/
theorem aggregation_keys_completion_order_witness :
    process_video (fun _ => Except.ok []) 2 1 1 (4/10) [1, 0] =
      Except.ok [(frameKey 1, []), (frameKey 0, [])] ∧
    ([(frameKey 1, ([] : List CleanPrediction)), (frameKey 0, [])].map
      Prod.fst).Perm ((List.range 2).map frameKey) := by
  obtain ⟨res, hres, hkeys, hpm⟩ :=
    aggregation_keys_completion_order (fun _ => Except.ok []) (4/10) 1 1 2 2
      [1, 0] (by rw [strideOf_one_one]; omega) (fun fid _ => ⟨[], rfl⟩)
      (by decide)
  have hval : process_video (fun _ => Except.ok []) 2 1 1 (4/10) [1, 0] =
      Except.ok [(frameKey 1, []), (frameKey 0, [])] := by
    unfold process_video
    rw [strideOf_one_one, if_neg (by omega)]
    rfl
  have hres2 : res = [(frameKey 1, []), (frameKey 0, [])] := by
    have := hres.symm.trans hval
    exact (Except.ok.injEq _ _).mp this
  subst hres2
  exact ⟨hval, hpm⟩

/-! ### C9: the stride computation -/

/-- C9 (counterexample): the stride is `int(fps * interval_sec)` —
truncation, not rounding: at 29.97 fps with a 2 s interval the code's
stride is 59 while `round(fps × interval)` is 60. -/
theorem stride_truncates_not_rounds :
    strideOf (2997/100) 2 = 59 ∧
    round ((2997/100 : ℚ) * 2) = 60 ∧
    (59 : ℤ) ≠ 60 := by
  refine ⟨?_, ?_, by decide⟩
  · unfold strideOf pyInt
    rw [if_pos (by norm_num)]
    rw [Int.floor_eq_iff]
    norm_num
  · rw [round_eq]
    rw [Int.floor_eq_iff]
    norm_num

/-- C9 (amended): the stride equals the *truncation* of
`frameRate × intervalSeconds` (the floor, for the non-negative inputs of
this pipeline); the sampled decoded frames are exactly those whose index
is a multiple of the stride, and the emitted frames carry sequential saved
indices starting at 0 in decode order. -/
theorem sampler_spec (fps interval_sec : ℚ) (numFrames : ℕ)
    (hfps : 0 ≤ fps) (hiv : 0 ≤ interval_sec) :
    strideOf fps interval_sec = ⌊fps * interval_sec⌋ ∧
    (∀ fc : ℕ,
      fc ∈ sampledDecodedIndices numFrames (strideOf fps interval_sec) ↔
        fc < numFrames ∧ (fc : ℤ) % strideOf fps interval_sec = 0) ∧
    (futuresOf numFrames (strideOf fps interval_sec)).map Prod.fst =
      List.range
        (sampledDecodedIndices numFrames (strideOf fps interval_sec)).length ∧
    (futuresOf numFrames (strideOf fps interval_sec)).map Prod.snd =
      sampledDecodedIndices numFrames (strideOf fps interval_sec) := by
  refine ⟨?_, ?_, ?_, ?_⟩
  · unfold strideOf pyInt
    rw [if_pos (mul_nonneg hfps hiv)]
  · intro fc
    simp [sampledDecodedIndices, List.mem_filter]
  · simp [futuresOf]
  · simp [futuresOf]

/-- Witness for C9's amended theorem at 10 fps, 2 s interval, 5 decoded
frames. -/
theorem sampler_spec_witness :
    strideOf 10 2 = ⌊(10 : ℚ) * 2⌋ ∧
    (futuresOf 5 (strideOf 10 2)).map Prod.snd =
      sampledDecodedIndices 5 (strideOf 10 2) :=
  ⟨(sampler_spec 10 2 5 (by norm_num) (by norm_num)).1,
   (sampler_spec 10 2 5 (by norm_num) (by norm_num)).2.2.2⟩

end SIH
